import Mathlib

/-!
Verification of the ghostgres PostgreSQL-cluster controller against its
natural-language specification.  The Go source (ghostgres.go plus the
template store in master.go) is shallowly embedded: the cluster descriptor
is a structure, filesystem state is an association list from paths to file
contents, external-process outcomes are supplied by an environment record,
and every operation is a pure function from (environment, descriptor,
filesystem) to a result, the updated descriptor, the updated filesystem and
the list of externally visible events it performed.
-/

namespace Ghostgres

/-- ConfigOpt mirrors the Go struct: a PostgreSQL configuration option used
both for command line arguments and for the postgresql.conf file. -/
structure ConfigOpt where
  Key : String
  Value : String
  Comment : String
deriving DecidableEq

/-- PostgresCluster mirrors the Go struct.  The running process handle
(proc, of Go type *exec.Cmd) is modelled as an optional numeric pid; the
onStop hook (a Go func()) is modelled as an optional unit, recording only
whether a hook is installed; its invocation is recorded as an event. -/
structure PostgresCluster where
  Config : List ConfigOpt
  DataDir : String
  InitOpts : List ConfigOpt
  RunOpts : List ConfigOpt
  BinDir : String
  Password : String
  proc : Option Nat
  onStop : Option Unit
deriving DecidableEq

/-- The two error kinds of Go strconv, each carrying the offending input
string: badDigits models ErrSyntax (NumError "invalid syntax") and
outOfRange models ErrRange (NumError "value out of range"). -/
inductive AtoiErr where
  | badDigits (num : String)
  | outOfRange (num : String)
deriving DecidableEq

/-- Result of Go strconv.Atoi: the parsed value together with an optional
error (none on success).  Go returns value 0 on a syntax error and the
clamped int64 bound on a range error. -/
structure AtoiRes where
  val : Int
  err : Option AtoiErr
deriving DecidableEq

/-- Largest uint64 value, the maxVal of Go ParseUint at bitSize 64. -/
def maxUint64 : Nat := 18446744073709551615

/-- The base-10 cutoff of Go ParseUint at bitSize 64: the smallest n for
which n times 10 overflows uint64, namely maxUint64 / 10 + 1. -/
def uintCutoff : Nat := 1844674407370955162

/-- The signed cutoff 1 <<< 63 used by Go ParseInt at bitSize 64. -/
def intCutoff : Nat := 9223372036854775808

/-- Largest int64 value, what Go ParseInt returns on positive overflow. -/
def maxInt64 : Int := 9223372036854775807

/-- Smallest int64 value, what Go ParseInt returns on negative
overflow. -/
def minInt64 : Int := -9223372036854775808

/-- The digit loop of Go ParseUint (base 10, bitSize 64) over the digit
characters of the input, with s0 the full original string used in error
values: scanning left to right, a non-digit returns 0 with ErrSyntax at
once; reaching the cutoff before multiplying, or exceeding maxVal after
adding the digit, returns maxVal with ErrRange at once; otherwise the
accumulator advances. -/
def parseUintLoop (s0 : String) : Nat → List Char → Nat × Option AtoiErr
  | n, [] => (n, none)
  | n, c :: cs =>
    if !c.isDigit then (0, some (.badDigits s0))
    else if n ≥ uintCutoff then (maxUint64, some (.outOfRange s0))
    else
      let n1 := n * 10 + (c.toNat - 48)
      if n1 > maxUint64 then (maxUint64, some (.outOfRange s0))
      else parseUintLoop s0 n1 cs

/-- The signed-range epilogue of Go ParseInt at bitSize 64, applied to
the unsigned magnitude: a non-negative value at or beyond 1 <<< 63 is
clamped to the int64 maximum with ErrRange; a negative value strictly
beyond 1 <<< 63 (the cutoff itself is representable negated) is clamped
to the int64 minimum with ErrRange; otherwise the signed value is
returned with a nil error. -/
def parseIntClamp (s0 : String) (neg : Bool) (un : Nat) : AtoiRes :=
  if neg = false ∧ un ≥ intCutoff then
    { val := maxInt64, err := some (.outOfRange s0) }
  else if neg = true ∧ un > intCutoff then
    { val := minInt64, err := some (.outOfRange s0) }
  else
    { val := (if neg then (-1 : Int) else 1) * (un : Nat), err := none }

/-- Embedding of Go strconv.Atoi, i.e. ParseInt(s, 10, 0) on a 64-bit
platform (the fast path for short inputs computes the same results): an
optional sign, then the ParseUint digit loop whose syntax error yields 0,
then the signed range clamp; Go treats an empty digit sequence as a
syntax error inside ParseUint, modelled by the emptiness test before the
loop. -/
def atoi (s : String) : AtoiRes :=
  let signDigits : Bool × List Char :=
    match s.data with
    | '+' :: r => (false, r)
    | '-' :: r => (true, r)
    | r => (false, r)
  match signDigits with
  | (neg, ds) =>
    if ds = [] then { val := 0, err := some (.badDigits s) }
    else
      match parseUintLoop s 0 ds with
      | (_, some (AtoiErr.badDigits n)) => { val := 0, err := some (.badDigits n) }
      | (un, _) => parseIntClamp s neg un

/-- The scan loop of PostgresCluster.Port: the port string starts as
"5432" and is replaced by the value of the first option keyed "port". -/
def portLookup : List ConfigOpt → String
  | [] => "5432"
  | o :: t => if o.Key = "port" then o.Value else portLookup t

/-- PostgresCluster.Port: parse the looked-up port string with
strconv.Atoi and return both the value and the error. -/
def Port (p : PostgresCluster) : AtoiRes :=
  atoi (portLookup p.Config)

/-- Fixed header of the generated postgresql.conf, the literal text of the
Go template before the range action (including the newline that separates
it from the first iteration). -/
def confHeader : String := "# Auto Generated PostgreSQL Configuration\n"

/-- Per-iteration output of the Go template postgresqlConfTemplate: a
newline, then key, the literal " = ", value, a space, then (only when the
comment is non-empty) the literal " # ", comment and a space, then the
newline before the end of the range body. -/
def renderOpt (o : ConfigOpt) : String :=
  "\n" ++ o.Key ++ " = " ++ o.Value ++ " " ++
    (if o.Comment = "" then "" else " # " ++ o.Comment ++ " ") ++ "\n"

/-- Sequential concatenation of the range-body outputs, one per option, in
input order, exactly as the template engine emits them. -/
def renderConfig : List ConfigOpt → String
  | [] => ""
  | o :: t => renderOpt o ++ renderConfig t

/-- Full text of the rendered postgresql.conf for a cluster: the template
is executed against the whole cluster value but references only its
Config field. -/
def render (p : PostgresCluster) : String :=
  confHeader ++ renderConfig p.Config

/-- Single content line that the template produces for one option, without
the surrounding newlines: key = value, with the comment appended only when
it is non-empty. -/
def lineStr (o : ConfigOpt) : String :=
  o.Key ++ " = " ++ o.Value ++ " " ++
    (if o.Comment = "" then "" else " # " ++ o.Comment ++ " ")

/-- Boolean prefix test on character lists, used to model paths lying
under a directory. -/
def leadsIn : List Char → List Char → Bool
  | [], _ => true
  | _ :: _, [] => false
  | a :: as, b :: bs => a = b && leadsIn as bs

/-- Filesystem state: an association list from file paths to file
contents; the first binding for a path is its current content. -/
abbrev FS : Type := List (String × String)

/-- Content of a regular file, none when absent. -/
def fsRead (fs : FS) (path : String) : Option String :=
  (List.find? (fun e => e.1 = path) fs).map (fun e => e.2)

/-- Write (create or overwrite) a regular file. -/
def fsWrite (fs : FS) (path contents : String) : FS :=
  (path, contents) :: fs

/-- Embedding of surulio.Exists / os.Stat: a path exists when it is a
regular file or when some file lies strictly below it as a directory. -/
def pathExists (fs : FS) (path : String) : Bool :=
  List.any fs (fun e => e.1 = path || leadsIn (path ++ "/").data e.1.data)

/-- Embedding of os.RemoveAll: drop the file at the path and every file
below it. -/
def removeAll (fs : FS) (path : String) : FS :=
  List.filter (fun e => !(e.1 = path || leadsIn (path ++ "/").data e.1.data)) fs

/-- Embedding of cp -r src dest for a non-existing dest: every file at or
under src is duplicated with the src path component replaced by dest. -/
def copyTree (fs : FS) (src dest : String) : FS :=
  fs ++ List.filterMap (fun e =>
    if e.1 = src then some (dest, e.2)
    else if leadsIn (src ++ "/").data e.1.data then
      some (dest ++ String.mk (e.1.data.drop (src ++ "/").data.length), e.2)
    else none) fs

/-- Embedding of filepath.Join on two components (path cleaning beyond
the empty-component cases is not exercised by the repository). -/
def pjoin (a b : String) : String :=
  if a = "" then b else if b = "" then a else a ++ "/" ++ b

/-- Error taxonomy of the public operations: lifecycle preconditions
(StateError), external process failures carrying captured output,
filesystem failures, and configuration failures. -/
inductive GhostErr where
  | stateError (msg : String)
  | processError (output : String)
  | ioError (msg : String)
  | configError (msg : String)
deriving DecidableEq

/-- Externally visible actions an operation performs, in order: writing a
file, running an external command to completion, spawning the server
process, signalling it, waiting on it, and invoking the onStop hook. -/
inductive Event where
  | writeFile (path contents : String)
  | execOut (binary : String) (args : List String)
  | spawn (binary : String) (args : List String)
  | sigterm
  | procWait
  | hook
deriving DecidableEq

/-- Outcomes of the operating system and external processes, supplied to
each operation: the temporary directory for the password file, results of
the external commands, the absolute form of the data directory, the pid a
successful spawn produces, and the exit outcome delivered by proc.Wait
(none for a clean zero exit, otherwise the Go error string). -/
structure Env where
  tmpPwDir : String
  pwWrite : Except String Unit
  initdbResult : Except String Unit
  confWrite : Except String Unit
  absDataDir : String
  spawnPid : Except String Nat
  waitResult : Option String
  cpResult : Except String Unit

instance exceptDecEq {E A : Type} [DecidableEq E] [DecidableEq A] :
    DecidableEq (Except E A) := fun x y =>
  match x, y with
  | .ok a, .ok b => decidable_of_iff (a = b) (by simp)
  | .error a, .error b => decidable_of_iff (a = b) (by simp)
  | .ok _, .error _ => isFalse (by simp)
  | .error _, .ok _ => isFalse (by simp)

/-- Result of one operation: the returned value or error, the receiver
descriptor after the call, the filesystem after the call, and the events
performed, in order. -/
structure OpOut (A : Type) where
  res : Except GhostErr A
  self : PostgresCluster
  fs : FS
  events : List Event
deriving DecidableEq

/-- Path of the rendered configuration file, DataDir/postgresql.conf. -/
def configFile (p : PostgresCluster) : String :=
  pjoin p.DataDir "postgresql.conf"

/-- PostgresCluster.Initialized: the configuration file exists under the
data directory. -/
def Initialized (p : PostgresCluster) (fs : FS) : Bool :=
  pathExists fs (configFile p)

/-- PostgresCluster.Running: the process handle is non-empty. -/
def Running (p : PostgresCluster) : Bool :=
  p.proc.isSome

/-- makeArgs: flatten options into command line arguments, emitting the
value only when it is non-empty. -/
def makeArgs : List ConfigOpt → List String
  | [] => []
  | o :: t => if o.Value = "" then o.Key :: makeArgs t
              else o.Key :: o.Value :: makeArgs t

/-- PostgresCluster.Init.  Fails first when already initialized.
Otherwise the password is written to a file inside a scoped temporary
directory (removed on every exit path, hence not part of the resulting
filesystem; the write is recorded as an event), initdb is run with
InitOpts plus the fixed pgdata and pwfile flags, and on success the
rendered configuration is written.  The cluster files initdb itself
creates inside DataDir are abstracted by the execOut event. -/
def Init (env : Env) (p : PostgresCluster) (fs : FS) : OpOut Unit :=
  if Initialized p fs then
    { res := .error (.stateError "postgres cluster already initialized"),
      self := p, fs := fs, events := [] }
  else
    let pwFile := pjoin env.tmpPwDir "postgres_pass"
    let args := makeArgs ((p.InitOpts ++ [{ Key := "--pgdata", Value := p.DataDir, Comment := "" }])
      ++ [{ Key := "--pwfile", Value := pwFile, Comment := "" }])
    match env.pwWrite with
    | .error e =>
      { res := .error (.ioError e), self := p, fs := fs,
        events := [.writeFile pwFile p.Password] }
    | .ok _ =>
      match env.initdbResult with
      | .error out =>
        { res := .error (.processError out), self := p, fs := fs,
          events := [.writeFile pwFile p.Password, .execOut (pjoin p.BinDir "initdb") args] }
      | .ok _ =>
        match env.confWrite with
        | .error e =>
          { res := .error (.ioError e), self := p, fs := fs,
            events := [.writeFile pwFile p.Password, .execOut (pjoin p.BinDir "initdb") args] }
        | .ok _ =>
          { res := .ok (), self := p,
            fs := fsWrite fs (configFile p) (render p),
            events := [.writeFile pwFile p.Password,
                       .execOut (pjoin p.BinDir "initdb") args,
                       .writeFile (configFile p) (render p)] }

/-- PostgresCluster.InitIfNeeded: call Init only when not yet
initialized, otherwise succeed without doing anything. -/
def InitIfNeeded (env : Env) (p : PostgresCluster) (fs : FS) : OpOut Unit :=
  if !(Initialized p fs) then Init env p fs
  else { res := .ok (), self := p, fs := fs, events := [] }

/-- PostgresCluster.Start: requires initialized then not running; spawns
the postgres binary with RunOpts plus the fixed -D, -k and -c flags; on
successful spawn the process handle is stored.  On spawn failure the
panic raised by check.Error prevents the handle assignment. -/
def Start (env : Env) (p : PostgresCluster) (fs : FS) : OpOut Unit :=
  if !(Initialized p fs) then
    { res := .error (.stateError "postgres cluster not initialized"),
      self := p, fs := fs, events := [] }
  else if Running p then
    { res := .error (.stateError "postgres cluster already running"),
      self := p, fs := fs, events := [] }
  else
    let sock := env.absDataDir
    let args := makeArgs (((p.RunOpts
      ++ [{ Key := "-D", Value := sock, Comment := "" }])
      ++ [{ Key := "-k", Value := sock, Comment := "" }])
      ++ [{ Key := "-c", Value := "config_file=" ++ configFile p, Comment := "" }])
    match env.spawnPid with
    | .error e =>
      { res := .error (.processError e), self := p, fs := fs,
        events := [.spawn (pjoin p.BinDir "postgres") args] }
    | .ok pid =>
      { res := .ok (), self := { p with proc := some pid }, fs := fs,
        events := [.spawn (pjoin p.BinDir "postgres") args] }

/-- PostgresCluster.Wait: requires running; blocks on proc.Wait, clears
the process handle on every outcome (deferred assignment), and converts
the outcome to an error unless it is a clean exit or the Go error string
for a SIGTERM-terminated process. -/
def Wait (env : Env) (p : PostgresCluster) (fs : FS) : OpOut Unit :=
  if !(Running p) then
    { res := .error (.stateError "postgres cluster not running"),
      self := p, fs := fs, events := [] }
  else
    let r : Except GhostErr Unit :=
      match env.waitResult with
      | none => .ok ()
      | some msg => if msg = "signal: terminated" then .ok () else .error (.processError msg)
    { res := r, self := { p with proc := none }, fs := fs, events := [.procWait] }

/-- Events contributed by the deferred onStop hook of
PostgresCluster.Stop: the hook runs whenever it is set, on every return
path, because the defer is registered before the Running check. -/
def hookEvents (p : PostgresCluster) : List Event :=
  match p.onStop with
  | some _ => [Event.hook]
  | none => []

/-- PostgresCluster.Stop: when not running, return nil (the deferred hook
still runs); otherwise send SIGTERM (its error is ignored) and delegate
to Wait, the hook running last. -/
def Stop (env : Env) (p : PostgresCluster) (fs : FS) : OpOut Unit :=
  if !(Running p) then
    { res := .ok (), self := p, fs := fs, events := hookEvents p }
  else
    let w := Wait env p fs
    { res := w.res, self := w.self, fs := w.fs,
      events := Event.sigterm :: w.events ++ hookEvents p }

/-- PostgresCluster.Clone: requires not running, then initialized, then a
non-existing destination; copies the data directory with cp -r and
returns a copy of the descriptor with DataDir replaced by dest.  The
receiver is never modified. -/
def Clone (env : Env) (p : PostgresCluster) (fs : FS) (dest : String) :
    OpOut PostgresCluster :=
  if Running p then
    { res := .error (.stateError "cannot clone a running cluster"),
      self := p, fs := fs, events := [] }
  else if !(Initialized p fs) then
    { res := .error (.stateError "cluster must be initialized before cloning"),
      self := p, fs := fs, events := [] }
  else if pathExists fs dest then
    { res := .error (.stateError "cannot clone into an existing directory"),
      self := p, fs := fs, events := [] }
  else
    match env.cpResult with
    | .error out =>
      { res := .error (.processError out), self := p, fs := fs,
        events := [.execOut "cp" ["-r", p.DataDir, dest]] }
    | .ok _ =>
      { res := .ok { p with DataDir := dest }, self := p,
        fs := copyTree fs p.DataDir dest,
        events := [.execOut "cp" ["-r", p.DataDir, dest]] }

/-- Environment of the template store (master.go): the GOPATH value, the
reflection-derived package path, the raw output of the version probe and
the semantic-version substring extracted from it (empty when the regular
expression found no match), the value of the ghostgres_template flag, the
temporary directory created when cloning to an unspecified destination,
the JSON decoder for the serialized descriptor, and the operating system
environment used by the inner Clone. -/
structure TplEnv where
  os : Env
  gopath : String
  pkgPath : String
  versionOutput : String
  version : String
  defaultName : String
  tplTempDir : String
  decode : String → Except String PostgresCluster

/-- Root-directory resolution of newTemplate: an empty root means the
package directory under GOPATH joined with testdata/template, faulting
when GOPATH is unset. -/
def resolveRoot (env : TplEnv) (root : String) : Except GhostErr String :=
  if root = "" then
    if env.gopath = "" then
      .error (.configError "GOPATH is not set. Unable to locate templates")
    else
      .ok (pjoin (pjoin env.gopath (pjoin "src" env.pkgPath)) "testdata/template")
  else .ok root

/-- newTemplate: resolve the root, substitute the default template name
for an empty name, probe the server version (parseVersion faults when no
version-shaped substring is found, modelled by an empty extracted
version), and join root/name/version into the template path. -/
def tplPath (env : TplEnv) (root name : String) : Except GhostErr String :=
  match resolveRoot env root with
  | .error e => .error e
  | .ok r =>
    let n := if name = "" then env.defaultName else name
    if env.version = "" then
      .error (.configError ("failed to parse postgres version from " ++ env.versionOutput))
    else .ok (pjoin r (pjoin n env.version))

/-- Path of the serialized descriptor inside a template directory. -/
def tplConfig (path : String) : String := pjoin path "ghostgres.json"

/-- Delete: remove the whole template directory tree.  os.RemoveAll
returns nil also when the path does not exist; its unusual failure modes
are not modelled. -/
def Delete (env : TplEnv) (fs : FS) (root name : String) :
    Except GhostErr Unit × FS :=
  match tplPath env root name with
  | .error e => (.error e, fs)
  | .ok path => (.ok (), removeAll fs path)

/-- FromTemplate: locate the template, read and decode its serialized
descriptor (a missing file is the not-found IOError), choose the clone
destination (a fresh temporary directory plus an onStop hook when dest is
empty), and clone the template data into it. -/
def FromTemplate (env : TplEnv) (fs : FS) (root name dest : String) :
    Except GhostErr PostgresCluster × FS :=
  match tplPath env root name with
  | .error e => (.error e, fs)
  | .ok path =>
    match fsRead fs (tplConfig path) with
    | none =>
      (.error (.ioError ("open " ++ tplConfig path ++ ": no such file or directory")), fs)
    | some raw =>
      match env.decode raw with
      | .error e => (.error (.ioError e), fs)
      | .ok cluster =>
        let cloneDir := if dest = "" then pjoin env.tplTempDir "clone" else dest
        let out := Clone env.os cluster fs cloneDir
        match out.res with
        | .error e => (.error e, out.fs)
        | .ok c =>
          (.ok (if dest = "" then { c with onStop := some () } else c), out.fs)

/-- Split a character list at newline characters; the result always has
one more element than the number of newlines. -/
def splitNl : List Char → List (List Char)
  | [] => [[]]
  | c :: cs =>
    if c = '\n' then [] :: splitNl cs
    else
      match splitNl cs with
      | [] => [[c]]
      | l :: ls => (c :: l) :: ls

/-- Lines of a string, obtained by splitting its characters at
newlines. -/
def strLines (s : String) : List String :=
  (splitNl s.data).map (fun l => String.mk l)

/-- The state invariant of the cluster lifecycle: a running descriptor is
always initialized. -/
def stateInv (p : PostgresCluster) (fs : FS) : Prop :=
  Running p = true → Initialized p fs = true

/-- Concrete operating system environment for witnesses: every external
step succeeds and the supervised process ends by the graceful SIGTERM. -/
def sampleEnv : Env :=
  { tmpPwDir := "/tmp/pg_init",
    pwWrite := .ok (),
    initdbResult := .ok (),
    confWrite := .ok (),
    absDataDir := "/data",
    spawnPid := .ok 42,
    waitResult := some "signal: terminated",
    cpResult := .ok () }

/-- Concrete option sequence for witnesses, shaped like the test
configuration. -/
def demoConfig : List ConfigOpt :=
  [{ Key := "port", Value := "5433", Comment := "Use a different port for tests" },
   { Key := "listen_addresses", Value := "off", Comment := "Disable TCP" },
   { Key := "autovacuum", Value := "off", Comment := "No autovacuum" },
   { Key := "fsync", Value := "off", Comment := "" }]

/-- Concrete cluster descriptor for witnesses. -/
def demoCluster : PostgresCluster :=
  { Config := demoConfig, DataDir := "/data", InitOpts := [], RunOpts := [],
    BinDir := "/usr/lib/postgresql/bin", Password := "secret",
    proc := none, onStop := none }

/-- A descriptor agreeing with demoCluster on Config but differing in
Password and BinDir. -/
def demoClusterB : PostgresCluster :=
  { demoCluster with Password := "other", BinDir := "/alt" }

/-- A descriptor with no port option. -/
def portlessCluster : PostgresCluster :=
  { demoCluster with Config := [] }

/-- A descriptor whose first port option value is not an integer, as in
the TestBadPort test. -/
def badPortCluster : PostgresCluster :=
  { demoCluster with
      Config := [{ Key := "port", Value := "this is a bad port", Comment := "" }] }

/-- A descriptor whose first port option value is a digit string beyond
the int64 range, exercising the strconv range-error path. -/
def overLongPortCluster : PostgresCluster :=
  { demoCluster with
      Config := [{ Key := "port", Value := "99999999999999999999", Comment := "" }] }

/-- A stopped descriptor with an onStop hook installed, as produced by
FromTemplate with an empty destination. -/
def stoppedHooked : PostgresCluster :=
  { demoCluster with onStop := some () }

/-- A running descriptor for witnesses. -/
def runningCluster : PostgresCluster :=
  { demoCluster with proc := some 7 }

/-- A filesystem in which demoCluster is initialized. -/
def sampleFs : FS :=
  [(configFile demoCluster, "rendered configuration")]

/-- Concrete template store environment for witnesses. -/
def sampleTplEnv : TplEnv :=
  { os := sampleEnv,
    gopath := "/go",
    pkgPath := "github.com/surullabs/ghostgres",
    versionOutput := "postgres (PostgreSQL) 9.3.5",
    version := "9.3.5",
    defaultName := "default",
    tplTempDir := "/tmp/ghostgres_clone",
    decode := fun _ => .error "decoder unused" }

/-- A filesystem holding one frozen template for witnesses. -/
def tplFs : FS :=
  [(tplConfig "tpl/mytpl/9.3.5", "serialized descriptor"),
   (pjoin "tpl/mytpl/9.3.5" "data/PG_VERSION", "9.3")]

theorem sdata_append (a b : String) : (a ++ b).data = a.data ++ b.data := by
  cases a
  cases b
  rfl

theorem smk_data (s : String) : String.mk s.data = s := rfl

theorem splitNl_cons_nl (cs : List Char) : splitNl ('\n' :: cs) = [] :: splitNl cs := by
  simp [splitNl]

theorem splitNl_append (a : List Char) (h : '\n' ∉ a) (b lb : List Char)
    (ls : List (List Char)) (hb : splitNl b = lb :: ls) :
    splitNl (a ++ b) = (a ++ lb) :: ls := by
  induction a with
  | nil => simpa using hb
  | cons c cs ih =>
    have hc : ¬ (c = '\n') := fun hEq => h (hEq ▸ List.mem_cons_self c cs)
    have h' : '\n' ∉ cs := fun hm => h (List.mem_cons_of_mem _ hm)
    rw [List.cons_append, splitNl, if_neg hc, ih h']
    simp

theorem renderOpt_data (o : ConfigOpt) :
    (renderOpt o).data = '\n' :: ((lineStr o).data ++ ['\n']) := by
  by_cases h : o.Comment = "" <;>
    simp [renderOpt, lineStr, h, sdata_append]

theorem splitNl_renderConfig (l : List ConfigOpt)
    (h : ∀ o ∈ l, '\n' ∉ (lineStr o).data) :
    splitNl (renderConfig l).data =
      (l.flatMap (fun o => [[], (lineStr o).data])) ++ [[]] := by
  induction l with
  | nil => simp [renderConfig, splitNl]
  | cons o t ih =>
    have ho : '\n' ∉ (lineStr o).data := h o (List.mem_cons_self o t)
    have ht : ∀ x ∈ t, '\n' ∉ (lineStr x).data :=
      fun x hx => h x (List.mem_cons_of_mem _ hx)
    have step1 : (renderConfig (o :: t)).data =
        '\n' :: ((lineStr o).data ++ ('\n' :: (renderConfig t).data)) := by
      show (renderOpt o ++ renderConfig t).data = _
      rw [sdata_append, renderOpt_data]
      simp
    rw [step1, splitNl_cons_nl,
        splitNl_append (lineStr o).data ho _ _ _ (splitNl_cons_nl (renderConfig t).data)]
    simp [ih ht]

theorem confHeader_data :
    confHeader.data =
      ("# Auto Generated PostgreSQL Configuration").data ++ ['\n'] := by
  decide

theorem render_data (p : PostgresCluster) :
    (render p).data =
      ("# Auto Generated PostgreSQL Configuration").data ++
        ('\n' :: (renderConfig p.Config).data) := by
  show (confHeader ++ renderConfig p.Config).data = _
  rw [sdata_append, confHeader_data]
  simp

/-- Claim C3: the rendered configuration text is the fixed header line followed,
for each option of the ordered sequence in input order, by a blank
separator line and exactly one content line of the form key = value with
the comment appended (as # comment) exactly when it is non-empty, and a
final empty trailing line; and the output is a pure function of the
ordered Config sequence alone (identical ordered Config yields
byte-identical output whatever the other fields are). -/
theorem render_spec :
    (∀ p q : PostgresCluster, p.Config = q.Config → render p = render q) ∧
    (∀ p : PostgresCluster, (∀ o ∈ p.Config, '\n' ∉ (lineStr o).data) →
      strLines (render p) =
        "# Auto Generated PostgreSQL Configuration" ::
          ((p.Config.flatMap (fun o => ["", lineStr o])) ++ [""])) := by
  constructor
  · intro p q h
    show confHeader ++ renderConfig p.Config = confHeader ++ renderConfig q.Config
    rw [h]
  · intro p h
    have hhdr : '\n' ∉ ("# Auto Generated PostgreSQL Configuration").data := by decide
    have hsplit := splitNl_append
      ("# Auto Generated PostgreSQL Configuration").data hhdr
      ('\n' :: (renderConfig p.Config).data) [] (splitNl (renderConfig p.Config).data)
      (splitNl_cons_nl (renderConfig p.Config).data)
    unfold strLines
    rw [render_data, hsplit, splitNl_renderConfig p.Config h]
    simp only [List.map_cons, List.map_append, List.map_flatMap]
    simp [smk_data, show String.mk [] = "" from rfl]

set_option maxRecDepth 4000 in
/-- Witness for render_spec: the purity part applied to two concrete
descriptors differing outside Config, and the line-structure part applied
to the demo configuration. -/
theorem render_spec_witness :
    render demoCluster = render demoClusterB ∧
    strLines (render demoCluster) =
      "# Auto Generated PostgreSQL Configuration" ::
        ((demoCluster.Config.flatMap (fun o => ["", lineStr o])) ++ [""]) :=
  ⟨render_spec.1 demoCluster demoClusterB rfl,
   render_spec.2 demoCluster (by decide)⟩

/-- Claim C10: the rendered configuration depends only on the Config sequence,
never on the Password field: changing only the password leaves the
configuration text byte-identical, so the superuser password never
influences (in particular never appears in) the rendered file. -/
theorem render_ignores_password (p : PostgresCluster) (pw : String) :
    render { p with Password := pw } = render p := rfl

theorem portLookup_eq_find (l : List ConfigOpt) :
    portLookup l =
      ((List.find? (fun o => o.Key = "port") l).map (fun o => o.Value)).getD "5432" := by
  induction l with
  | nil => rfl
  | cons o t ih =>
    by_cases h : o.Key = "port" <;> simp [portLookup, List.find?_cons, h, ih]

theorem parseIntClamp_cases (s0 : String) (neg : Bool) (un : Nat) :
    (parseIntClamp s0 neg un).err = none ∨
    ((parseIntClamp s0 neg un).err = some (AtoiErr.outOfRange s0) ∧
      ((parseIntClamp s0 neg un).val = maxInt64 ∨
        (parseIntClamp s0 neg un).val = minInt64)) := by
  unfold parseIntClamp
  split_ifs
  all_goals first
    | exact Or.inr ⟨rfl, Or.inl rfl⟩
    | exact Or.inr ⟨rfl, Or.inr rfl⟩
    | exact Or.inl rfl

theorem atoi_err_cases (s : String) :
    (atoi s).err = none ∨
    (∃ n, (atoi s).err = some (AtoiErr.badDigits n) ∧ (atoi s).val = 0) ∨
    (∃ n, (atoi s).err = some (AtoiErr.outOfRange n) ∧
      ((atoi s).val = maxInt64 ∨ (atoi s).val = minInt64)) := by
  unfold atoi
  split
  all_goals
    dsimp only
    split
    · exact Or.inr (Or.inl ⟨_, rfl, rfl⟩)
    · split
      · exact Or.inr (Or.inl ⟨_, rfl, rfl⟩)
      · rcases parseIntClamp_cases s _ _ with h | ⟨h, hv⟩
        · exact Or.inl h
        · exact Or.inr (Or.inr ⟨s, h, hv⟩)

/-- Counterexample to C1 as stated.  When the port option is absent the
code returns the default 5432 with no error at all (no ConfigurationError
is reported), and when the first port value is syntactically unparsable
it returns 0 -- the zero value of strconv.Atoi -- together with the parse
error, not the default 5432. -/
theorem port_claim_counterexample :
    Port portlessCluster = { val := 5432, err := none } ∧
    Port badPortCluster =
      { val := 0, err := some (AtoiErr.badDigits "this is a bad port") } := by
  decide

/-- Claim C1 as amended: Port() scans for the first option keyed "port".
When none exists it returns the fixed default 5432 with no error.  When
one exists its value is handed to strconv.Atoi and that result is
returned unchanged: the parsed integer with no error when the value is a
decimal integer in the int64 range, 0 together with the syntax error when
it is syntactically unparsable, and the clamped int64 bound (maximum or
minimum, never the default 5432) together with the range error when it is
a decimal integer beyond the int64 range. -/
theorem port_amended (p : PostgresCluster) :
    (List.find? (fun o => o.Key = "port") p.Config = none →
      Port p = { val := 5432, err := none }) ∧
    (∀ o, List.find? (fun o => o.Key = "port") p.Config = some o →
      Port p = atoi o.Value ∧
      (∀ n, (atoi o.Value).err = some (AtoiErr.badDigits n) → (Port p).val = 0) ∧
      (∀ n, (atoi o.Value).err = some (AtoiErr.outOfRange n) →
        (Port p).val = maxInt64 ∨ (Port p).val = minInt64)) := by
  constructor
  · intro h
    show atoi (portLookup p.Config) = _
    rw [portLookup_eq_find, h]
    decide
  · intro o h
    have hp : Port p = atoi o.Value := by
      show atoi (portLookup p.Config) = _
      rw [portLookup_eq_find, h]
      simp
    refine ⟨hp, ?_, ?_⟩
    · intro n hn
      rcases atoi_err_cases o.Value with h0 | ⟨m, hm, hv⟩ | ⟨m, hm, hv⟩
      · rw [h0] at hn
        exact absurd hn (by simp)
      · rw [hp]
        exact hv
      · rw [hm] at hn
        exact absurd hn (by simp)
    · intro n hn
      rcases atoi_err_cases o.Value with h0 | ⟨m, hm, hv⟩ | ⟨m, hm, hv⟩
      · rw [h0] at hn
        exact absurd hn (by simp)
      · rw [hm] at hn
        exact absurd hn (by simp)
      · rw [hp]
        exact hv

/-- Witness for port_amended: the portless descriptor hits the default
branch, the demo descriptor parses its concrete in-range port value, and
a descriptor with a port value beyond the int64 range gets the clamped
bound of the range-error path. -/
theorem port_amended_witness :
    Port portlessCluster = { val := 5432, err := none } ∧
    Port demoCluster = atoi "5433" ∧
    ((Port overLongPortCluster).val = maxInt64 ∨
      (Port overLongPortCluster).val = minInt64) :=
  ⟨(port_amended portlessCluster).1 (by decide),
   ((port_amended demoCluster).2
      ⟨"port", "5433", "Use a different port for tests"⟩ (by decide)).1,
   (((port_amended overLongPortCluster).2
      ⟨"port", "99999999999999999999", ""⟩ (by decide)).2.2
      "99999999999999999999" (by decide))⟩

/-- Claim C4: calling Init on an already initialized descriptor fails with the
StateError raised by the initial precondition check, and since that check
runs before any other step, the descriptor, the whole filesystem (hence
the data directory byte-for-byte) are unchanged and no event happens: no
file is written and no external process is invoked. -/
theorem init_on_initialized (env : Env) (p : PostgresCluster) (fs : FS)
    (h : Initialized p fs = true) :
    Init env p fs =
      { res := .error (.stateError "postgres cluster already initialized"),
        self := p, fs := fs, events := [] } := by
  simp [Init, h]

/-- Witness for init_on_initialized at the initialized demo cluster. -/
theorem init_on_initialized_witness :
    Initialized demoCluster sampleFs = true ∧
    Init sampleEnv demoCluster sampleFs =
      { res := .error (.stateError "postgres cluster already initialized"),
        self := demoCluster, fs := sampleFs, events := [] } :=
  ⟨by decide, init_on_initialized sampleEnv demoCluster sampleFs (by decide)⟩

/-- Counterexample to C2 as stated.  Stop registers the hook-invoking
defer before testing Running, so on a stopped descriptor with an onStop
hook installed, Stop returns no error and performs no process action but
does invoke the hook: the claim that the hook is never invoked on a
non-running descriptor is false. -/
theorem stop_claim_counterexample :
    Running stoppedHooked = false ∧
    Stop sampleEnv stoppedHooked sampleFs =
      { res := .ok (), self := stoppedHooked, fs := sampleFs,
        events := [Event.hook] } := by
  decide

/-- Claim C2 as amended: Stop on a non-running descriptor returns no error,
leaves the descriptor and the filesystem unchanged and performs no
process action (no signal, no wait, no spawn), but it does invoke the
onDestroy hook whenever one is installed: the deferred hook runs on every
Stop call, not only after a running cluster was signalled and waited
on. -/
theorem stop_not_running (env : Env) (p : PostgresCluster) (fs : FS)
    (h : Running p = false) :
    Stop env p fs =
      { res := .ok (), self := p, fs := fs, events := hookEvents p } := by
  simp [Stop, h]

/-- Witness for stop_not_running at a hooked stopped descriptor. -/
theorem stop_not_running_witness :
    Running stoppedHooked = false ∧
    Stop sampleEnv stoppedHooked sampleFs =
      { res := .ok (), self := stoppedHooked, fs := sampleFs,
        events := hookEvents stoppedHooked } :=
  ⟨by decide, stop_not_running sampleEnv stoppedHooked sampleFs (by decide)⟩

/-- Claim C7: Wait fails with a StateError when the cluster is not running and
changes nothing; when it is running it waits on the process (the single
procWait event), clears the process handle whatever the outcome so that
Running is false afterwards, returns success on a clean exit, treats the
SIGTERM termination outcome ("signal: terminated") as success, and
surfaces every other outcome as an error carrying that outcome. -/
theorem wait_spec (env : Env) (p : PostgresCluster) (fs : FS) :
    (Running p = false →
      Wait env p fs =
        { res := .error (.stateError "postgres cluster not running"),
          self := p, fs := fs, events := [] }) ∧
    (Running p = true →
      (Wait env p fs).self = { p with proc := none } ∧
      (Wait env p fs).fs = fs ∧
      (Wait env p fs).events = [Event.procWait] ∧
      (env.waitResult = none → (Wait env p fs).res = .ok ()) ∧
      (env.waitResult = some "signal: terminated" → (Wait env p fs).res = .ok ()) ∧
      (∀ msg, env.waitResult = some msg → msg ≠ "signal: terminated" →
        (Wait env p fs).res = .error (.processError msg))) := by
  constructor
  · intro h
    simp [Wait, h]
  · intro h
    refine ⟨by simp [Wait, h], by simp [Wait, h], by simp [Wait, h], ?_, ?_, ?_⟩
    · intro hw
      simp [Wait, h, hw]
    · intro hw
      simp [Wait, h, hw]
    · intro msg hw hne
      simp [Wait, h, hw, hne]

/-- Witness for wait_spec: the not-running branch on the demo cluster and
the running branch under the SIGTERM outcome. -/
theorem wait_spec_witness :
    Wait sampleEnv demoCluster sampleFs =
      { res := .error (.stateError "postgres cluster not running"),
        self := demoCluster, fs := sampleFs, events := [] } ∧
    (Wait sampleEnv runningCluster sampleFs).self =
      { runningCluster with proc := none } ∧
    (Wait sampleEnv runningCluster sampleFs).res = .ok () :=
  ⟨(wait_spec sampleEnv demoCluster sampleFs).1 (by decide),
   ((wait_spec sampleEnv runningCluster sampleFs).2 (by decide)).1,
   (((wait_spec sampleEnv runningCluster sampleFs).2 (by decide)).2.2.2.2).1 (by decide)⟩

/-- Claim C5: Clone fails with a StateError and performs no action at all (the
filesystem, hence dest, is untouched, the receiver unchanged and no copy
command is run) whenever the source is running, the source is
uninitialized, or the destination already exists. -/
theorem clone_state_failures (env : Env) (p : PostgresCluster) (fs : FS)
    (dest : String)
    (h : Running p = true ∨ Initialized p fs = false ∨ pathExists fs dest = true) :
    ∃ msg, Clone env p fs dest =
      { res := .error (.stateError msg), self := p, fs := fs, events := [] } := by
  by_cases hR : Running p = true
  · exact ⟨"cannot clone a running cluster", by simp [Clone, hR]⟩
  · have hR' : Running p = false := by
      cases hb : Running p
      · rfl
      · exact absurd hb hR
    by_cases hI : Initialized p fs = true
    · have hE : pathExists fs dest = true := by
        rcases h with h | h | h
        · exact absurd h hR
        · exact absurd hI (by simp [h])
        · exact h
      exact ⟨"cannot clone into an existing directory", by simp [Clone, hR', hI, hE]⟩
    · have hI' : Initialized p fs = false := by
        cases hb : Initialized p fs
        · rfl
        · exact absurd hb hI
      exact ⟨"cluster must be initialized before cloning", by simp [Clone, hR', hI']⟩

/-- Witness for clone_state_failures: cloning from a running source. -/
theorem clone_state_failures_witness :
    (Running runningCluster = true ∨ Initialized runningCluster sampleFs = false ∨
      pathExists sampleFs "/clone" = true) ∧
    ∃ msg, Clone sampleEnv runningCluster sampleFs "/clone" =
      { res := .error (.stateError msg), self := runningCluster, fs := sampleFs,
        events := [] } :=
  ⟨Or.inl (by decide),
   clone_state_failures sampleEnv runningCluster sampleFs "/clone" (Or.inl (by decide))⟩

theorem clone_ok_cases (env : Env) (p : PostgresCluster) (fs : FS)
    (dest : String) (c : PostgresCluster)
    (h : (Clone env p fs dest).res = .ok c) :
    Running p = false ∧ c = { p with DataDir := dest } ∧
    (Clone env p fs dest).self = p := by
  cases hR : Running p with
  | true => exact absurd h (by simp [Clone, hR])
  | false =>
    cases hI : Initialized p fs with
    | false => exact absurd h (by simp [Clone, hR, hI])
    | true =>
      cases hE : pathExists fs dest with
      | true => exact absurd h (by simp [Clone, hR, hI, hE])
      | false =>
        cases hcp : env.cpResult with
        | error e => exact absurd h (by simp [Clone, hR, hI, hE, hcp])
        | ok u =>
          have hc : c = { p with DataDir := dest } := by
            have h' := h
            simp [Clone, hR, hI, hE, hcp] at h'
            exact h'.symm
          exact ⟨rfl, hc, by simp [Clone, hR, hI, hE, hcp]⟩

/-- Claim C6: whenever Clone succeeds, the returned descriptor is the
source descriptor with only DataDir replaced by dest (every other field,
including configuration, options, binaries, password, process handle and
hook, is identical), the receiver is left unmodified, and the clone's
data directory differs from the source's whenever dest does. -/
theorem clone_success_shape (env : Env) (p : PostgresCluster) (fs : FS)
    (dest : String) (c : PostgresCluster)
    (h : (Clone env p fs dest).res = .ok c) :
    c = { p with DataDir := dest } ∧
    (Clone env p fs dest).self = p ∧
    (dest ≠ p.DataDir → c.DataDir ≠ p.DataDir) := by
  obtain ⟨_, hc, hself⟩ := clone_ok_cases env p fs dest c h
  refine ⟨hc, hself, fun hne => ?_⟩
  rw [hc]
  simpa using hne

/-- Witness for clone_success_shape: a concrete successful clone of the
initialized demo cluster into a fresh destination. -/
theorem clone_success_shape_witness :
    (Clone sampleEnv demoCluster sampleFs "/clone").res =
      .ok { demoCluster with DataDir := "/clone" } ∧
    { demoCluster with DataDir := "/clone" } =
      { demoCluster with DataDir := "/clone" } ∧
    (Clone sampleEnv demoCluster sampleFs "/clone").self = demoCluster ∧
    ("/clone" ≠ demoCluster.DataDir →
      ({ demoCluster with DataDir := "/clone" } : PostgresCluster).DataDir ≠
        demoCluster.DataDir) :=
  ⟨by decide,
   (clone_success_shape sampleEnv demoCluster sampleFs "/clone"
      { demoCluster with DataDir := "/clone" } (by decide)).1,
   (clone_success_shape sampleEnv demoCluster sampleFs "/clone"
      { demoCluster with DataDir := "/clone" } (by decide)).2.1,
   (clone_success_shape sampleEnv demoCluster sampleFs "/clone"
      { demoCluster with DataDir := "/clone" } (by decide)).2.2⟩

theorem initialized_fsWrite_conf (p : PostgresCluster) (fs : FS) (s : String) :
    Initialized p (fsWrite fs (configFile p) s) = true := by
  simp [Initialized, pathExists, fsWrite]

theorem Init_cases (env : Env) (p : PostgresCluster) (fs : FS) :
    (Init env p fs).self = p ∧
    ((Init env p fs).fs = fs ∨
      (Init env p fs).fs = fsWrite fs (configFile p) (render p)) := by
  unfold Init
  split
  · exact ⟨rfl, Or.inl rfl⟩
  · cases env.pwWrite with
    | error e => exact ⟨rfl, Or.inl rfl⟩
    | ok u =>
      cases env.initdbResult with
      | error e => exact ⟨rfl, Or.inl rfl⟩
      | ok v =>
        cases env.confWrite with
        | error e => exact ⟨rfl, Or.inl rfl⟩
        | ok w => exact ⟨rfl, Or.inr rfl⟩

theorem Start_cases (env : Env) (p : PostgresCluster) (fs : FS) :
    (Start env p fs).fs = fs ∧
    ((Start env p fs).self = p ∨
      (Initialized p fs = true ∧
        ∃ pid, (Start env p fs).self = { p with proc := some pid })) := by
  unfold Start
  cases hI : Initialized p fs with
  | false => simp [hI]
  | true =>
    cases hR : Running p with
    | true => simp [hI, hR]
    | false =>
      cases env.spawnPid with
      | error e => simp [hI, hR]
      | ok pid => exact ⟨by simp [hI, hR], Or.inr ⟨rfl, pid, by simp [hI, hR]⟩⟩

theorem Wait_cases (env : Env) (p : PostgresCluster) (fs : FS) :
    (Wait env p fs).fs = fs ∧
    ((Wait env p fs).self = p ∨ (Wait env p fs).self = { p with proc := none }) := by
  unfold Wait
  cases hR : Running p with
  | false => simp [hR]
  | true => simp [hR]

theorem Stop_cases (env : Env) (p : PostgresCluster) (fs : FS) :
    (Stop env p fs).fs = fs ∧
    ((Stop env p fs).self = p ∨ (Stop env p fs).self = { p with proc := none }) := by
  unfold Stop
  cases hR : Running p with
  | false => simp [hR]
  | true => simpa [hR] using Wait_cases env p fs

theorem Clone_cases (env : Env) (p : PostgresCluster) (fs : FS) (dest : String) :
    (Clone env p fs dest).self = p ∧
    ((Clone env p fs dest).fs = fs ∨ Running p = false) := by
  constructor
  · unfold Clone
    split
    · rfl
    · split
      · rfl
      · split
        · rfl
        · split <;> rfl
  · cases hR : Running p with
    | true =>
      refine Or.inl ?_
      simp [Clone, hR]
    | false => exact Or.inr rfl

/-- Claim C8: no operation produces a descriptor that is running but not
initialized.  Start on a non-initialized descriptor fails with a
StateError, spawns nothing and leaves the handle as it was; Start on a
running descriptor fails with a StateError leaving the descriptor (hence
its process handle) untouched; and the invariant Running implies
Initialized is preserved by Init, InitIfNeeded, Start, Wait, Stop and
Clone, on the receiver and also on the descriptor Clone returns. -/
theorem running_initialized_invariant :
    (∀ env p fs, Initialized p fs = false →
      Start env p fs =
        { res := .error (.stateError "postgres cluster not initialized"),
          self := p, fs := fs, events := [] }) ∧
    (∀ env p fs, Running p = true →
      (∃ msg, (Start env p fs).res = .error (.stateError msg)) ∧
      (Start env p fs).self = p ∧ (Start env p fs).events = []) ∧
    (∀ env p fs, stateInv p fs → stateInv (Init env p fs).self (Init env p fs).fs) ∧
    (∀ env p fs, stateInv p fs →
      stateInv (InitIfNeeded env p fs).self (InitIfNeeded env p fs).fs) ∧
    (∀ env p fs, stateInv p fs → stateInv (Start env p fs).self (Start env p fs).fs) ∧
    (∀ env p fs, stateInv p fs → stateInv (Wait env p fs).self (Wait env p fs).fs) ∧
    (∀ env p fs, stateInv p fs → stateInv (Stop env p fs).self (Stop env p fs).fs) ∧
    (∀ env p fs dest, stateInv p fs →
      stateInv (Clone env p fs dest).self (Clone env p fs dest).fs) ∧
    (∀ env p fs dest c, (Clone env p fs dest).res = .ok c →
      stateInv c (Clone env p fs dest).fs) := by
  have hInitPres : ∀ env p fs, stateInv p fs →
      stateInv (Init env p fs).self (Init env p fs).fs := by
    intro env p fs hInv
    obtain ⟨hself, hfs⟩ := Init_cases env p fs
    rw [hself]
    cases hfs with
    | inl he => rw [he]; exact hInv
    | inr he => rw [he]; intro _; exact initialized_fsWrite_conf p fs (render p)
  refine ⟨?_, ?_, hInitPres, ?_, ?_, ?_, ?_, ?_, ?_⟩
  · intro env p fs h
    simp [Start, h]
  · intro env p fs h
    cases hI : Initialized p fs with
    | false =>
      refine ⟨⟨"postgres cluster not initialized", by simp [Start, hI]⟩, ?_, ?_⟩ <;>
        simp [Start, hI]
    | true =>
      refine ⟨⟨"postgres cluster already running", by simp [Start, hI, h]⟩, ?_, ?_⟩ <;>
        simp [Start, hI, h]
  · intro env p fs hInv
    unfold InitIfNeeded
    cases hI : Initialized p fs with
    | false => simpa [hI] using hInitPres env p fs hInv
    | true => simpa [hI] using hInv
  · intro env p fs hInv
    obtain ⟨hfs, hself⟩ := Start_cases env p fs
    rw [hfs]
    cases hself with
    | inl he => rw [he]; exact hInv
    | inr he =>
      obtain ⟨hI, pid, hp⟩ := he
      rw [hp]
      intro _
      exact hI
  · intro env p fs hInv
    obtain ⟨hfs, hself⟩ := Wait_cases env p fs
    rw [hfs]
    cases hself with
    | inl he => rw [he]; exact hInv
    | inr he =>
      rw [he]
      intro hr
      exact absurd hr (by simp [Running])
  · intro env p fs hInv
    obtain ⟨hfs, hself⟩ := Stop_cases env p fs
    rw [hfs]
    cases hself with
    | inl he => rw [he]; exact hInv
    | inr he =>
      rw [he]
      intro hr
      exact absurd hr (by simp [Running])
  · intro env p fs dest hInv
    obtain ⟨hself, hfs⟩ := Clone_cases env p fs dest
    rw [hself]
    cases hfs with
    | inl he => rw [he]; exact hInv
    | inr he =>
      intro hr
      exact absurd hr (by simp [Running] at he ⊢; simp [he])
  · intro env p fs dest c h
    obtain ⟨hR, hc, _⟩ := clone_ok_cases env p fs dest c h
    rw [hc]
    intro hr
    exact absurd hr (by simp [Running] at hR ⊢; simp [hR])

/-- Witness for running_initialized_invariant: Start on the uninitialized
portless descriptor fails without spawning, Start on the running
descriptor fails leaving it untouched, and the invariant is preserved by
a concrete Init call. -/
theorem running_initialized_invariant_witness :
    (Initialized portlessCluster [] = false ∧
      Start sampleEnv portlessCluster [] =
        { res := .error (.stateError "postgres cluster not initialized"),
          self := portlessCluster, fs := [], events := [] }) ∧
    (Running runningCluster = true ∧ (Start sampleEnv runningCluster sampleFs).self = runningCluster) ∧
    stateInv (Init sampleEnv demoCluster []).self (Init sampleEnv demoCluster []).fs :=
  ⟨⟨by decide, running_initialized_invariant.1 sampleEnv portlessCluster [] (by decide)⟩,
   ⟨by decide,
    (running_initialized_invariant.2.1 sampleEnv runningCluster sampleFs (by decide)).2.1⟩,
   running_initialized_invariant.2.2.1 sampleEnv demoCluster []
     (fun h => absurd h (by decide))⟩

theorem leadsIn_append (a b : List Char) : leadsIn a (a ++ b) = true := by
  induction a with
  | nil => rfl
  | cons c cs ih => simp [leadsIn, ih]

theorem pjoin_ne_empty (a b : String) (hb : b ≠ "") : pjoin a b ≠ "" := by
  unfold pjoin
  by_cases ha : a = ""
  · rw [if_pos ha]
    exact hb
  · rw [if_neg ha, if_neg hb]
    intro h
    have hd := congrArg String.data h
    rw [sdata_append, sdata_append] at hd
    simp [show ("/" : String).data = ['/'] from rfl,
          show ("" : String).data = [] from rfl] at hd

theorem fsRead_removeAll (fs : FS) (path sub : String) (hpath : path ≠ "")
    (hsub : sub ≠ "") :
    fsRead (removeAll fs path) (pjoin path sub) = none := by
  have hkey : pjoin path sub = (path ++ "/") ++ sub := by
    unfold pjoin
    rw [if_neg hpath, if_neg hsub]
  unfold fsRead
  rw [Option.map_eq_none', List.find?_eq_none]
  intro e he
  unfold removeAll at he
  rw [List.mem_filter] at he
  obtain ⟨_, hkeep⟩ := he
  intro hcontra
  rw [decide_eq_true_eq] at hcontra
  rw [hcontra, hkey] at hkeep
  simp only [sdata_append] at hkeep
  rw [leadsIn_append] at hkeep
  simp at hkeep

/-- Claim C9: once Delete has succeeded in removing the template directory
tree, FromTemplate for the same identity fails with the not-found IOError
raised when reading the serialized descriptor, instead of producing a
descriptor. -/
theorem delete_then_fromTemplate (env : TplEnv) (fs : FS) (root name dest : String)
    (h : (Delete env fs root name).1 = .ok ()) :
    ∃ path, tplPath env root name = .ok path ∧
      (FromTemplate env (Delete env fs root name).2 root name dest).1 =
        .error (.ioError ("open " ++ tplConfig path ++ ": no such file or directory")) := by
  cases hp : tplPath env root name with
  | error e =>
    exfalso
    unfold Delete at h
    rw [hp] at h
    exact absurd h (by simp)
  | ok path =>
    refine ⟨path, rfl, ?_⟩
    have hfs : (Delete env fs root name).2 = removeAll fs path := by
      unfold Delete
      rw [hp]
    have hpne : path ≠ "" := by
      unfold tplPath at hp
      cases hr : resolveRoot env root with
      | error e =>
        rw [hr] at hp
        exact absurd hp (by simp)
      | ok r =>
        rw [hr] at hp
        dsimp only at hp
        by_cases hv : env.version = ""
        · rw [if_pos hv] at hp
          exact absurd hp (by simp)
        · rw [if_neg hv] at hp
          have hpe : pjoin r (pjoin (if name = "" then env.defaultName else name) env.version) = path := by
            simpa using hp
          rw [← hpe]
          exact pjoin_ne_empty r _ (pjoin_ne_empty _ env.version hv)
    unfold FromTemplate
    rw [hp, hfs]
    dsimp only
    simp only [tplConfig]
    rw [fsRead_removeAll fs path "ghostgres.json" hpne (by decide)]

/-- Witness for delete_then_fromTemplate: a concrete template is deleted
and the subsequent FromTemplate on the same identity reports the missing
descriptor file. -/
theorem delete_then_fromTemplate_witness :
    (Delete sampleTplEnv tplFs "tpl" "mytpl").1 = .ok () ∧
    ∃ path, tplPath sampleTplEnv "tpl" "mytpl" = .ok path ∧
      (FromTemplate sampleTplEnv (Delete sampleTplEnv tplFs "tpl" "mytpl").2
          "tpl" "mytpl" "/dst").1 =
        .error (.ioError ("open " ++ tplConfig path ++ ": no such file or directory")) :=
  ⟨by decide,
   delete_then_fromTemplate sampleTplEnv tplFs "tpl" "mytpl" "/dst" (by decide)⟩

end Ghostgres
